import Mathlib

/-!
# Verification of the file reconciliation engine

Shallow embedding of `src/aiFileReconciliation.js` (class
`AIFileReconciliationService`).  The module binds
`const fs = require('fs').promises` (line 1); that namespace provides
`access` and `readFile` but has no `createReadStream`.  Consequently
`_generateChecksum` (line 95) rejects every call with
`TypeError: fs.createReadStream is not a function`, and `_compareTextFiles`
(lines 116–123) throws the same `TypeError` while building its readline
interfaces, before its `try` block.  The embedding models the file system as
an `FS` record of the two Promise-API interactions that actually exist, and
models `_generateChecksum` and `_compareTextFiles` as the unconditional
errors they are; the rest of the control flow of `reconcileFiles` and
`_compareJsonFiles` is translated statement by statement.
-/

namespace AIFileReconciliation

/-- A JavaScript error value as observed by the `catch` blocks of the source:
an optional `code` (e.g. `"ENOENT"`; a plain `TypeError` has none), a
`message`, and an optional `path`. -/
structure JsError where
  code : Option String
  message : String
  path : Option String
  deriving Repr, DecidableEq

/-- A parsed JSON document, the generic tree produced by `JSON.parse`
(objects are association lists in insertion order; `JSON.parse` never yields
duplicate keys, the last occurrence wins). -/
inductive JsonVal where
  | null : JsonVal
  | bool (b : Bool) : JsonVal
  | num (n : Int) : JsonVal
  | str (s : String) : JsonVal
  | arr (xs : List JsonVal) : JsonVal
  | obj (fields : List (String × JsonVal)) : JsonVal
  deriving Repr

/-- Key lookup on a parsed JSON object (JavaScript property access). -/
def jsonLookup (k : String) : List (String × JsonVal) → Option JsonVal
  | [] => none
  | (k', v) :: rest => if k' == k then some v else jsonLookup k rest

mutual
/-- `util.isDeepStrictEqual` restricted to values produced by `JSON.parse`:
object equality is key-count plus per-key recursive equality (independent of
key order), array equality is index-wise and order-sensitive, scalar equality
is exact with no type coercion. -/
def deepEq : JsonVal → JsonVal → Bool
  | .null, .null => true
  | .bool a, .bool b => a == b
  | .num a, .num b => a == b
  | .str a, .str b => a == b
  | .arr xs, .arr ys => deepEqArr xs ys
  | .obj fs, .obj gs => fs.length == gs.length && deepEqObj fs gs
  | _, _ => false

/-- Index-wise equality of JSON arrays. -/
def deepEqArr : List JsonVal → List JsonVal → Bool
  | [], [] => true
  | x :: xs, y :: ys => deepEq x y && deepEqArr xs ys
  | _, _ => false

/-- Every key of the first object is present in the second with a deeply
equal value. -/
def deepEqObj : List (String × JsonVal) → List (String × JsonVal) → Bool
  | [], _ => true
  | (k, v) :: rest, gs =>
      (match jsonLookup k gs with
       | some w => deepEq v w
       | none => false) && deepEqObj rest gs
end

/-- Split a character list at every occurrence of a separator character
(the splitting primitive under `path.basename` / `path.extname`). -/
def splitOnChar (sep : Char) : List Char → List (List Char)
  | [] => [[]]
  | c :: cs =>
      match splitOnChar sep cs with
      | [] => if c = sep then [[], []] else [[c]]
      | r :: rs => if c = sep then [] :: r :: rs else (c :: r) :: rs

/-- `String.prototype.toLowerCase` on a single character (ASCII range, the
only characters appearing in file extensions here). -/
def charToLower (c : Char) : Char :=
  if 'A' ≤ c ∧ c ≤ 'Z' then Char.ofNat (c.toNat + 32) else c

/-- `String.prototype.toLowerCase`. -/
def strToLower (s : String) : String := ⟨s.data.map charToLower⟩

/-- `path.basename` for the simple (POSIX, no trailing separator games)
paths the engine receives: the last non-empty `/`-separated component. -/
def basename (p : String) : String :=
  ⟨((splitOnChar '/' p.data).filter (fun s => s ≠ [])).getLastD []⟩

/-- `path.extname`: the suffix of the basename from its last `.` on; empty
when the basename has no dot or only a leading dot. -/
def extname (p : String) : String :=
  let parts := splitOnChar '.' (basename p).data
  if parts.length ≤ 1 then ""
  else if parts.length = 2 ∧ parts.headD ['x'] = [] then ""
  else ⟨'.' :: parts.getLastD []⟩

/-- The abstract file system: the two interactions of the source with
`require('fs').promises` that exist on that namespace.
* `access p` — `fs.access(p)` (resolves, or rejects e.g. with `ENOENT`);
* `readParse p` — `fs.readFile(p, 'utf8')` followed by `JSON.parse`: the
  parsed document, or the read/parse error (both are caught by the same
  `catch` in `_compareJsonFiles`, so they are not distinguished here).

`fs.createReadStream` is deliberately NOT a capability of this record: the
`promises` namespace has no such function, so the source's calls to it throw
`TypeError` unconditionally (see `createReadStreamError`). -/
structure FS where
  access : String → Except JsError Unit
  readParse : String → Except JsError JsonVal

/-- Engine configuration: only the `verbose` flag is observable in the
returned outcomes (log path and digest algorithm feed the log side channel
and the dead checksum code). -/
structure Config where
  verbose : Bool := false

/-- The object returned by `reconcileFiles`.  Absent JavaScript fields are
`none`. -/
structure Outcome where
  status : String
  message : String
  checksum1 : Option String := none
  checksum2 : Option String := none
  details : Option (List String) := none
  error : Option String := none
  deriving Repr, DecidableEq

/-- The `details` list of an outcome, reading an absent field as empty. -/
def Outcome.detailsList (o : Outcome) : List String := o.details.getD []

/-- The `TypeError` raised by calling the undefined property
`createReadStream` of `require('fs').promises`.  A `TypeError` carries no
`code` property, so the `catch` of `reconcileFiles` cannot classify it as
`ENOENT`. -/
def createReadStreamError : JsError :=
  { code := none, message := "fs.createReadStream is not a function", path := none }

/-- `_generateChecksum` (source lines 92–100): `crypto.createHash` succeeds,
then `fs.createReadStream(filePath)` is called inside the `Promise`
executor; `fs` is `require('fs').promises`, which has no `createReadStream`,
so the executor throws and every call rejects with the `TypeError`.  No
digest is ever produced. -/
def generateChecksum (_filePath : String) : Except JsError String :=
  .error createReadStreamError

/-- `_compareTextFiles` (source lines 110–185): the two readline interfaces
are created from `fs.createReadStream` at lines 116–123, BEFORE the `try`
block, so every call throws the `TypeError` out of the async function (a
rejected promise).  The line-comparison loop, its verbose drain and its
five-detail truncation cap (lines 129–172) are dead code; the function never
returns a verdict and never reads a line. -/
def compareTextFiles (_verbose : Bool) (_file1Path _file2Path : String) :
    Except JsError (Bool × List String) :=
  .error createReadStreamError

/-- `_compareJsonFiles` (source lines 200–234): read and parse both files,
then one `util.isDeepStrictEqual` verdict; read or parse failure on either
side is caught and returned as a non-match with a single parse-error detail.
(`fs.readFile` does exist on the `promises` namespace, so this comparator is
functional — though `reconcileFiles` can never reach it, see
`reconcileBody`.) -/
def compareJsonFiles (fs : FS) (file1Path file2Path : String) : Bool × List String :=
  match fs.readParse file1Path, fs.readParse file2Path with
  | .ok obj1, .ok obj2 =>
      if deepEq obj1 obj2 then (true, [])
      else (false, ["JSON content differs (deep strict comparison, order of keys in objects does not matter)."])
  | .error e, _ => (false, ["Error parsing JSON: " ++ e.message])
  | .ok _, .error e => (false, ["Error parsing JSON: " ++ e.message])

/-- The body of the `try` block of `reconcileFiles`: any `Except.error`
escapes to the `catch` handler in `reconcileFiles` below.  The checksum
binds always error (see `generateChecksum`), so control never reaches the
checksum comparison or the comparator dispatch: past the extension gate,
every run lands in the `catch`. -/
def reconcileBody (cfg : Config) (fs : FS) (file1Path file2Path : String) :
    Except JsError Outcome := do
  let _ ← fs.access file1Path
  let _ ← fs.access file2Path
  let file1Ext := strToLower (extname file1Path)
  let file2Ext := strToLower (extname file2Path)
  if file1Ext ≠ file2Ext then
    return { status := "MISMATCH_EXTENSIONS",
             message := "File extensions do not match: '" ++ file1Ext ++ "' vs '" ++
               file2Ext ++ "'. Cannot perform content comparison." }
  let checksum1 ← generateChecksum file1Path
  let checksum2 ← generateChecksum file2Path
  if checksum1 = checksum2 then
    return { status := "MATCH",
             message := "Checksums match for '" ++ file1Path ++ "' and '" ++ file2Path ++
               "'. Files are identical.",
             checksum1 := some checksum1, checksum2 := some checksum2 }
  let comparisonResult? : Option (Bool × List String) ←
    if file1Ext = ".txt" ∨ file1Ext = ".csv" then do
      let r ← compareTextFiles cfg.verbose file1Path file2Path
      pure (some r)
    else if file1Ext = ".json" then
      pure (some (compareJsonFiles fs file1Path file2Path))
    else
      pure none
  match comparisonResult? with
  | none =>
      return { status := "UNSUPPORTED_TYPE",
               message := "Unsupported file type for content comparison: '" ++ file1Ext ++
                 "'. Only checksums were compared.",
               checksum1 := some checksum1, checksum2 := some checksum2 }
  | some comparisonResult =>
      if comparisonResult.1 then
        return { status := "MATCH",
                 message := "Content matches for '" ++ file1Path ++ "' and '" ++ file2Path ++ "'.",
                 checksum1 := some checksum1, checksum2 := some checksum2,
                 details := some comparisonResult.2 }
      else
        return { status := "MISMATCH_CONTENT",
                 message := "Content mismatch detected between '" ++ file1Path ++ "' and '" ++
                   file2Path ++ "'.",
                 checksum1 := some checksum1, checksum2 := some checksum2,
                 details := some comparisonResult.2 }

/-- `reconcileFiles(file1Path, file2Path)`: the `try` body plus the `catch`
handler, which maps an `ENOENT` error to `FILE_NOT_FOUND` and anything else
(including the `createReadStream` `TypeError`, whose `code` is undefined)
to `ERROR`. -/
def reconcileFiles (cfg : Config) (fs : FS) (file1Path file2Path : String) : Outcome :=
  match reconcileBody cfg fs file1Path file2Path with
  | .ok outcome => outcome
  | .error e =>
      if e.code = some "ENOENT" then
        { status := "FILE_NOT_FOUND",
          message := "One or both files not found: " ++ e.path.getD "undefined" ++ ".",
          error := some e.message }
      else
        { status := "ERROR",
          message := "An unexpected error occurred: " ++ e.message,
          error := some e.message }

/-- The `ERROR` outcome produced by the `catch` of `reconcileFiles` for the
`createReadStream` `TypeError`. -/
def checksumFaultOutcome : Outcome :=
  { status := "ERROR",
    message := "An unexpected error occurred: fs.createReadStream is not a function",
    error := some "fs.createReadStream is not a function" }

/-! ## Concrete file systems used to instantiate the theorems -/

/-- A file system on which every path is accessible and parses to `null`. -/
def fsC1 : FS :=
  { access := fun _ => .ok ()
    readParse := fun _ => .ok .null }

/-- A file system of JSON documents: `a.json`/`b.json` hold the same object
with keys in different orders, `c.json`/`d.json` the same array in different
orders, and any other path fails to parse. -/
def fsJson : FS :=
  { access := fun _ => .ok ()
    readParse := fun p =>
      if p = "a.json" then .ok (.obj [("a", .num 1), ("b", .num 2)])
      else if p = "b.json" then .ok (.obj [("b", .num 2), ("a", .num 1)])
      else if p = "c.json" then .ok (.arr [.num 1, .num 2])
      else if p = "d.json" then .ok (.arr [.num 2, .num 1])
      else .error ⟨none, "Unexpected end of JSON input", none⟩ }

/-- A file system whose `access` rejects with a non-`ENOENT` error. -/
def fsFault : FS :=
  { access := fun p => .error ⟨some "EACCES", "permission denied", some p⟩
    readParse := fun _ => .ok .null }

/-! ## Helper lemmas -/

theorem exceptBindOk {ε α β : Type} (a : α) (f : α → Except ε β) :
    (Except.ok a >>= f : Except ε β) = f a := rfl

theorem exceptBindErr {ε α β : Type} (e : ε) (f : α → Except ε β) :
    (Except.error e >>= f : Except ε β) = Except.error e := rfl

theorem exceptPureEq {ε α : Type} (a : α) :
    (pure a : Except ε α) = Except.ok a := rfl

/-- Once both paths are accessible and the extension gate passes, the very
next step — the first checksum — rejects with the `createReadStream`
`TypeError`, and the `catch` turns it into the `ERROR` outcome.  This is the
fate of every run of `reconcileFiles` that gets past the extension gate. -/
theorem reconcile_checksum_fault (cfg : Config) (fs : FS) (p1 p2 : String)
    (h1 : fs.access p1 = .ok ()) (h2 : fs.access p2 = .ok ())
    (hext : strToLower (extname p1) = strToLower (extname p2)) :
    reconcileFiles cfg fs p1 p2 = checksumFaultOutcome := by
  unfold reconcileFiles reconcileBody generateChecksum createReadStreamError
    checksumFaultOutcome
  simp [h1, h2, hext, exceptBindOk, exceptBindErr]

/-- Case analysis of every exit path of `reconcileFiles`: the two `details`
invariants and membership of `status` in the closed enumeration.  In this
faithful model only `FILE_NOT_FOUND`, `MISMATCH_EXTENSIONS` and `ERROR` are
reachable (the checksum step always errors out), so the `MATCH` and
`MISMATCH_CONTENT` implications hold vacuously. -/
theorem reconcile_status_spec (cfg : Config) (fs : FS) (p1 p2 : String) :
    ((reconcileFiles cfg fs p1 p2).status = "MATCH" →
       (reconcileFiles cfg fs p1 p2).detailsList = []) ∧
    ((reconcileFiles cfg fs p1 p2).status = "MISMATCH_CONTENT" →
       (reconcileFiles cfg fs p1 p2).detailsList ≠ []) ∧
    (reconcileFiles cfg fs p1 p2).status ∈
      (["MATCH", "MISMATCH_EXTENSIONS", "MISMATCH_CONTENT",
        "UNSUPPORTED_TYPE", "FILE_NOT_FOUND", "ERROR"] : List String) := by
  unfold reconcileFiles reconcileBody
  cases hA1 : fs.access p1 with
  | error e => simp [exceptBindErr, Outcome.detailsList]; split <;> simp
  | ok u =>
    cases hA2 : fs.access p2 with
    | error e => simp [exceptBindOk, exceptBindErr, Outcome.detailsList]; split <;> simp
    | ok u2 =>
      simp only [exceptBindOk]
      by_cases hx : strToLower (extname p1) = strToLower (extname p2)
      · simp [hx, generateChecksum, createReadStreamError, exceptBindOk, exceptBindErr,
          exceptPureEq, Outcome.detailsList]
      · simp [hx, exceptBindOk, exceptBindErr, exceptPureEq, Outcome.detailsList]

/-! ## Claims -/

/-- C1 (code bug).  The claim asserts the checksum fast path: for accessible
files with the same (case-insensitive) extension and equal computed
checksums, `reconcileFiles` returns `MATCH` with both checksums populated.
The code cannot produce it: `_generateChecksum` calls `fs.createReadStream`
on `require('fs').promises`, which has no such function, so no checksum is
ever computed — for EVERY pair of accessible files with equal extensions
(identical bytes included) `reconcileFiles` lands in its `catch` and returns
the `ERROR` outcome with no checksum fields; the `MATCH` fast path is
unreachable. -/
theorem c1_fast_path_unreachable (cfg : Config) (fs : FS) (p1 p2 : String)
    (h1 : fs.access p1 = .ok ()) (h2 : fs.access p2 = .ok ())
    (hext : strToLower (extname p1) = strToLower (extname p2)) :
    generateChecksum p1 = .error createReadStreamError ∧
    reconcileFiles cfg fs p1 p2 = checksumFaultOutcome ∧
    (reconcileFiles cfg fs p1 p2).status ≠ "MATCH" ∧
    (reconcileFiles cfg fs p1 p2).checksum1 = none ∧
    (reconcileFiles cfg fs p1 p2).checksum2 = none := by
  have key := reconcile_checksum_fault cfg fs p1 p2 h1 h2 hext
  refine ⟨rfl, key, ?_, ?_, ?_⟩ <;> rw [key] <;> decide

/-- C1 witness: two accessible `.txt` files. -/
theorem c1_fast_path_unreachable_witness :
    generateChecksum "a.txt" = .error createReadStreamError ∧
    reconcileFiles {} fsC1 "a.txt" "b.txt" = checksumFaultOutcome ∧
    (reconcileFiles {} fsC1 "a.txt" "b.txt").status ≠ "MATCH" ∧
    (reconcileFiles {} fsC1 "a.txt" "b.txt").checksum1 = none ∧
    (reconcileFiles {} fsC1 "a.txt" "b.txt").checksum2 = none :=
  c1_fast_path_unreachable {} fsC1 "a.txt" "b.txt" rfl rfl (by decide)

/-- C2. For every pair of accessible input paths whose extensions differ
under case-insensitive comparison, `reconcileFiles` returns
`MISMATCH_EXTENSIONS` with neither checksum field populated.  The gate
precedes checksum computation: it returns before the (always-throwing)
checksum step — which is also why the outcome is `MISMATCH_EXTENSIONS`
rather than `ERROR` — and the final conjunct shows the result is unchanged
under arbitrary replacement of everything but `access` (`fs'` agrees with
`fs` only on `access`). -/
theorem c2_extension_gate (cfg : Config) (fs fs' : FS) (p1 p2 : String)
    (h1 : fs.access p1 = .ok ()) (h2 : fs.access p2 = .ok ())
    (hext : strToLower (extname p1) ≠ strToLower (extname p2))
    (ha' : fs'.access = fs.access) :
    reconcileFiles cfg fs p1 p2 =
      { status := "MISMATCH_EXTENSIONS",
        message := "File extensions do not match: '" ++ strToLower (extname p1) ++ "' vs '" ++
          strToLower (extname p2) ++ "'. Cannot perform content comparison." } ∧
    (reconcileFiles cfg fs p1 p2).checksum1 = none ∧
    (reconcileFiles cfg fs p1 p2).checksum2 = none ∧
    reconcileFiles cfg fs' p1 p2 = reconcileFiles cfg fs p1 p2 := by
  have key : ∀ g : FS, g.access p1 = .ok () → g.access p2 = .ok () →
      reconcileFiles cfg g p1 p2 =
        { status := "MISMATCH_EXTENSIONS",
          message := "File extensions do not match: '" ++ strToLower (extname p1) ++ "' vs '" ++
            strToLower (extname p2) ++ "'. Cannot perform content comparison." } := by
    intro g g1 g2
    unfold reconcileFiles reconcileBody
    simp [g1, g2, exceptBindOk, exceptPureEq, hext]
  refine ⟨key fs h1 h2, ?_, ?_, ?_⟩
  · rw [key fs h1 h2]
  · rw [key fs h1 h2]
  · rw [key fs' (by rw [ha']; exact h1) (by rw [ha']; exact h2), key fs h1 h2]

/-- C2 witness: accessible `a.txt` vs `b.json`. -/
theorem c2_extension_gate_witness :
    reconcileFiles {} fsC1 "a.txt" "b.json" =
      { status := "MISMATCH_EXTENSIONS",
        message := "File extensions do not match: '.txt' vs '.json'. Cannot perform content comparison." } ∧
    (reconcileFiles {} fsC1 "a.txt" "b.json").checksum1 = none ∧
    (reconcileFiles {} fsC1 "a.txt" "b.json").checksum2 = none ∧
    reconcileFiles {} fsC1 "a.txt" "b.json" = reconcileFiles {} fsC1 "a.txt" "b.json" := by
  have h := c2_extension_gate {} fsC1 fsC1 "a.txt" "b.json"
    rfl rfl (by decide) rfl
  have e : strToLower (extname "a.txt") = ".txt" := by decide
  have e2 : strToLower (extname "b.json") = ".json" := by decide
  refine ⟨?_, h.2.1, h.2.2.1, h.2.2.2⟩
  rw [h.1, e, e2]
  decide

/-- C3. Every outcome returned by `reconcileFiles` satisfies both
invariants: if `status` is `MATCH` then the details list is empty, and if
`status` is `MISMATCH_CONTENT` then the details list is non-empty.  (In the
program as written these two statuses are unreachable — every run past the
extension gate ends in `ERROR` — so the invariants hold, vacuously for the
unreachable statuses.) -/
theorem c3_outcome_invariants (cfg : Config) (fs : FS) (p1 p2 : String) :
    ((reconcileFiles cfg fs p1 p2).status = "MATCH" →
       (reconcileFiles cfg fs p1 p2).detailsList = []) ∧
    ((reconcileFiles cfg fs p1 p2).status = "MISMATCH_CONTENT" →
       (reconcileFiles cfg fs p1 p2).detailsList ≠ []) :=
  ⟨(reconcile_status_spec cfg fs p1 p2).1, (reconcile_status_spec cfg fs p1 p2).2.1⟩

/-- C3 witness: the invariants at a concrete accessible input. -/
theorem c3_outcome_invariants_witness :
    ((reconcileFiles {} fsC1 "a.txt" "b.txt").status = "MATCH" →
       (reconcileFiles {} fsC1 "a.txt" "b.txt").detailsList = []) ∧
    ((reconcileFiles {} fsC1 "a.txt" "b.txt").status = "MISMATCH_CONTENT" →
       (reconcileFiles {} fsC1 "a.txt" "b.txt").detailsList ≠ []) :=
  c3_outcome_invariants {} fsC1 "a.txt" "b.txt"

/-- C4. `reconcileFiles` is a total function (it never raises past its
boundary in this embedding) whose `status` always belongs to the closed
six-member enumeration; an internal fault that is not an `ENOENT` error is
mapped to the `ERROR` status. -/
theorem c4_closed_enumeration (cfg : Config) (fs : FS) (p1 p2 : String) :
    (reconcileFiles cfg fs p1 p2).status ∈
      (["MATCH", "MISMATCH_EXTENSIONS", "MISMATCH_CONTENT",
        "UNSUPPORTED_TYPE", "FILE_NOT_FOUND", "ERROR"] : List String) ∧
    (∀ e : JsError, fs.access p1 = .error e → e.code ≠ some "ENOENT" →
       (reconcileFiles cfg fs p1 p2).status = "ERROR") := by
  refine ⟨(reconcile_status_spec cfg fs p1 p2).2.2, ?_⟩
  intro e he hcode
  unfold reconcileFiles reconcileBody
  rw [he]
  simp [exceptBindErr, hcode]

/-- C4 witness: an `EACCES` access fault surfaces as the `ERROR` status,
inside the closed enumeration. -/
theorem c4_closed_enumeration_witness :
    (reconcileFiles {} fsFault "a.txt" "b.txt").status ∈
      (["MATCH", "MISMATCH_EXTENSIONS", "MISMATCH_CONTENT",
        "UNSUPPORTED_TYPE", "FILE_NOT_FOUND", "ERROR"] : List String) ∧
    (reconcileFiles {} fsFault "a.txt" "b.txt").status = "ERROR" :=
  ⟨(c4_closed_enumeration {} fsFault "a.txt" "b.txt").1,
   (c4_closed_enumeration {} fsFault "a.txt" "b.txt").2
     ⟨some "EACCES", "permission denied", some "a.txt"⟩ rfl (by decide)⟩

/-- C5 (code bug).  The claim asserts the non-verbose five-detail cap plus
truncation notice (6 details) for equal-length all-differing text files.
The code can record no details at all: `_compareTextFiles` throws the
`createReadStream` `TypeError` while building its readline interfaces,
before its `try` block, and `reconcileFiles` never even dispatches to it —
the checksum step already rejects, so every accessible same-extension `.txt`
pair yields the `ERROR` outcome with no `details` field. -/
theorem c5_cap_unreachable (cfg : Config) (fs : FS) (p1 p2 : String)
    (_hv : cfg.verbose = false)
    (h1 : fs.access p1 = .ok ()) (h2 : fs.access p2 = .ok ())
    (hext : strToLower (extname p1) = strToLower (extname p2))
    (_htxt : strToLower (extname p1) = ".txt" ∨ strToLower (extname p1) = ".csv") :
    compareTextFiles false p1 p2 = .error createReadStreamError ∧
    reconcileFiles cfg fs p1 p2 = checksumFaultOutcome ∧
    (reconcileFiles cfg fs p1 p2).detailsList = [] := by
  have key := reconcile_checksum_fault cfg fs p1 p2 h1 h2 hext
  exact ⟨rfl, key, by rw [key]; rfl⟩

/-- C5 witness: two accessible `.txt` files, non-verbose. -/
theorem c5_cap_unreachable_witness :
    compareTextFiles false "a.txt" "b.txt" = .error createReadStreamError ∧
    reconcileFiles {} fsC1 "a.txt" "b.txt" = checksumFaultOutcome ∧
    (reconcileFiles {} fsC1 "a.txt" "b.txt").detailsList = [] :=
  c5_cap_unreachable {} fsC1 "a.txt" "b.txt" rfl rfl rfl (by decide)
    (Or.inl (by decide))

/-- C6 (code bug).  The claim asserts that a premature end of one text file
yields `MISMATCH_CONTENT` with exactly one line-count-mismatch detail.  In
the code, for every accessible pair of `.txt` files — whatever their line
contents — `reconcileFiles` returns the `ERROR` outcome from the checksum
`TypeError` before any comparator runs, with no `details` field; and the
comparator itself would throw before reading a single line. -/
theorem c6_line_count_unreachable (cfg : Config) (fs : FS) (p1 p2 : String)
    (_hv : cfg.verbose = false)
    (h1 : fs.access p1 = .ok ()) (h2 : fs.access p2 = .ok ())
    (hext : strToLower (extname p1) = strToLower (extname p2))
    (_htxt : strToLower (extname p1) = ".txt" ∨ strToLower (extname p1) = ".csv") :
    reconcileFiles cfg fs p1 p2 = checksumFaultOutcome ∧
    (reconcileFiles cfg fs p1 p2).status ≠ "MISMATCH_CONTENT" ∧
    (reconcileFiles cfg fs p1 p2).details = none := by
  have key := reconcile_checksum_fault cfg fs p1 p2 h1 h2 hext
  refine ⟨key, ?_, ?_⟩ <;> rw [key] <;> decide

/-- C6 witness: two accessible `.txt` files, non-verbose. -/
theorem c6_line_count_unreachable_witness :
    reconcileFiles {} fsC1 "a.txt" "b.txt" = checksumFaultOutcome ∧
    (reconcileFiles {} fsC1 "a.txt" "b.txt").status ≠ "MISMATCH_CONTENT" ∧
    (reconcileFiles {} fsC1 "a.txt" "b.txt").details = none :=
  c6_line_count_unreachable {} fsC1 "a.txt" "b.txt" rfl rfl rfl (by decide)
    (Or.inl (by decide))

/-- C7 (code bug).  The claim asserts the verbose drain: one "only in file
N" entry per remaining line after the premature-termination entry.  The
drain never runs: `_compareTextFiles` throws the `createReadStream`
`TypeError` at readline-interface creation (before its `try` block), in
verbose mode as in any other, and `reconcileFiles` never reaches the
comparator — every accessible `.txt` pair ends as the `ERROR` outcome. -/
theorem c7_verbose_drain_unreachable (cfg : Config) (fs : FS) (p1 p2 : String)
    (_hv : cfg.verbose = true)
    (h1 : fs.access p1 = .ok ()) (h2 : fs.access p2 = .ok ())
    (hext : strToLower (extname p1) = strToLower (extname p2))
    (_htxt : strToLower (extname p1) = ".txt" ∨ strToLower (extname p1) = ".csv") :
    compareTextFiles true p1 p2 = .error createReadStreamError ∧
    reconcileFiles cfg fs p1 p2 = checksumFaultOutcome :=
  ⟨rfl, reconcile_checksum_fault cfg fs p1 p2 h1 h2 hext⟩

/-- C7 witness: two accessible `.txt` files, verbose. -/
theorem c7_verbose_drain_unreachable_witness :
    compareTextFiles true "a.txt" "b.txt" = .error createReadStreamError ∧
    reconcileFiles { verbose := true } fsC1 "a.txt" "b.txt" = checksumFaultOutcome :=
  c7_verbose_drain_unreachable { verbose := true } fsC1 "a.txt" "b.txt" rfl rfl rfl
    (by decide) (Or.inl (by decide))

/-- C8 (code bug).  The deep-equality semantics themselves are as claimed —
at the comparator level `_compareJsonFiles` finds the key-reordered objects
equal, the reordered arrays unequal, and `deepEq` performs no coercion on
`1` vs `"1"` — but the claim's conclusions are `reconcileFiles` statuses
(`MATCH` / `MISMATCH_CONTENT`) for `.json` files "with differing checksums":
checksums are never computed (the checksum step rejects with the
`createReadStream` `TypeError`), so both reconciliations return `ERROR` and
the claimed statuses are unreachable. -/
theorem c8_json_statuses_unreachable (cfg : Config) (fs : FS) (p1 p2 p3 p4 : String)
    (h1 : fs.access p1 = .ok ()) (h2 : fs.access p2 = .ok ())
    (hext12 : strToLower (extname p1) = strToLower (extname p2))
    (_hjson1 : strToLower (extname p1) = ".json")
    (hp1 : fs.readParse p1 = .ok (.obj [("a", .num 1), ("b", .num 2)]))
    (hp2 : fs.readParse p2 = .ok (.obj [("b", .num 2), ("a", .num 1)]))
    (h3 : fs.access p3 = .ok ()) (h4 : fs.access p4 = .ok ())
    (hext34 : strToLower (extname p3) = strToLower (extname p4))
    (_hjson3 : strToLower (extname p3) = ".json")
    (hp3 : fs.readParse p3 = .ok (.arr [.num 1, .num 2]))
    (hp4 : fs.readParse p4 = .ok (.arr [.num 2, .num 1])) :
    compareJsonFiles fs p1 p2 = (true, []) ∧
    compareJsonFiles fs p3 p4 =
      (false, ["JSON content differs (deep strict comparison, order of keys in objects does not matter)."]) ∧
    deepEq (.num 1) (.str "1") = false ∧
    reconcileFiles cfg fs p1 p2 = checksumFaultOutcome ∧
    reconcileFiles cfg fs p3 p4 = checksumFaultOutcome ∧
    (reconcileFiles cfg fs p1 p2).status ≠ "MATCH" ∧
    (reconcileFiles cfg fs p3 p4).status ≠ "MISMATCH_CONTENT" := by
  have key12 := reconcile_checksum_fault cfg fs p1 p2 h1 h2 hext12
  have key34 := reconcile_checksum_fault cfg fs p3 p4 h3 h4 hext34
  refine ⟨?_, ?_, rfl, key12, key34, by rw [key12]; decide, by rw [key34]; decide⟩
  · unfold compareJsonFiles
    rw [hp1, hp2]
    rfl
  · unfold compareJsonFiles
    rw [hp3, hp4]
    rfl

/-- C8 witness: the object and array examples from the specification on the
concrete JSON file system. -/
theorem c8_json_statuses_unreachable_witness :
    compareJsonFiles fsJson "a.json" "b.json" = (true, []) ∧
    compareJsonFiles fsJson "c.json" "d.json" =
      (false, ["JSON content differs (deep strict comparison, order of keys in objects does not matter)."]) ∧
    deepEq (.num 1) (.str "1") = false ∧
    reconcileFiles {} fsJson "a.json" "b.json" = checksumFaultOutcome ∧
    reconcileFiles {} fsJson "c.json" "d.json" = checksumFaultOutcome ∧
    (reconcileFiles {} fsJson "a.json" "b.json").status ≠ "MATCH" ∧
    (reconcileFiles {} fsJson "c.json" "d.json").status ≠ "MISMATCH_CONTENT" :=
  c8_json_statuses_unreachable {} fsJson "a.json" "b.json" "c.json" "d.json"
    rfl rfl (by decide) (by decide) rfl rfl
    rfl rfl (by decide) (by decide) rfl rfl

/-- C9 (code bug).  The claim says a JSON parse failure yields a comparator
verdict `isMatch = false` with one parse-error detail — which is true of
`_compareJsonFiles` in isolation — and that `reconcileFiles` maps it to
`MISMATCH_CONTENT`, "never to status Error".  The mapping is the opposite:
`reconcileFiles` never invokes `_compareJsonFiles`, because the checksum
step rejects with the `createReadStream` `TypeError` first, so every
accessible `.json` pair (malformed or not) ends as the `ERROR` outcome. -/
theorem c9_parse_error_maps_to_error (cfg : Config) (fs : FS) (p1 p2 : String)
    (e : JsError) (jv : JsonVal)
    (h1 : fs.access p1 = .ok ()) (h2 : fs.access p2 = .ok ())
    (hext : strToLower (extname p1) = strToLower (extname p2))
    (_hjson : strToLower (extname p1) = ".json")
    (hparse : fs.readParse p1 = .error e ∨
      (fs.readParse p1 = .ok jv ∧ fs.readParse p2 = .error e)) :
    compareJsonFiles fs p1 p2 = (false, ["Error parsing JSON: " ++ e.message]) ∧
    reconcileFiles cfg fs p1 p2 = checksumFaultOutcome ∧
    (reconcileFiles cfg fs p1 p2).status = "ERROR" ∧
    (reconcileFiles cfg fs p1 p2).status ≠ "MISMATCH_CONTENT" := by
  have key := reconcile_checksum_fault cfg fs p1 p2 h1 h2 hext
  refine ⟨?_, key, by rw [key]; rfl, by rw [key]; decide⟩
  unfold compareJsonFiles
  rcases hparse with h | ⟨ha, hb⟩
  · rw [h]
  · rw [ha, hb]

/-- C9 witness: a malformed JSON file against a valid one. -/
theorem c9_parse_error_maps_to_error_witness :
    compareJsonFiles fsJson "bad.json" "a.json" =
      (false, ["Error parsing JSON: " ++ "Unexpected end of JSON input"]) ∧
    reconcileFiles {} fsJson "bad.json" "a.json" = checksumFaultOutcome ∧
    (reconcileFiles {} fsJson "bad.json" "a.json").status = "ERROR" ∧
    (reconcileFiles {} fsJson "bad.json" "a.json").status ≠ "MISMATCH_CONTENT" :=
  c9_parse_error_maps_to_error {} fsJson "bad.json" "a.json"
    ⟨none, "Unexpected end of JSON input", none⟩ .null
    rfl rfl (by decide) (by decide) (Or.inl rfl)

/-- C10 (code bug).  The claim asserts the truncation notice is appended
after the fifth differing-line entry even when no further differences exist.
No entry is ever appended: `_compareTextFiles` throws the
`createReadStream` `TypeError` before reading any line, `reconcileFiles`
never dispatches to it (the checksum step rejects first), and the outcome
for every accessible `.txt` pair has status `ERROR` and no `details`
field. -/
theorem c10_truncation_unreachable (cfg : Config) (fs : FS) (p1 p2 : String)
    (_hv : cfg.verbose = false)
    (h1 : fs.access p1 = .ok ()) (h2 : fs.access p2 = .ok ())
    (hext : strToLower (extname p1) = strToLower (extname p2))
    (_htxt : strToLower (extname p1) = ".txt" ∨ strToLower (extname p1) = ".csv") :
    compareTextFiles false p1 p2 = .error createReadStreamError ∧
    (reconcileFiles cfg fs p1 p2).status = "ERROR" ∧
    (reconcileFiles cfg fs p1 p2).details = none := by
  have key := reconcile_checksum_fault cfg fs p1 p2 h1 h2 hext
  exact ⟨rfl, by rw [key]; rfl, by rw [key]; rfl⟩

/-- C10 witness: two accessible `.txt` files, non-verbose. -/
theorem c10_truncation_unreachable_witness :
    compareTextFiles false "a.txt" "b.txt" = .error createReadStreamError ∧
    (reconcileFiles {} fsC1 "a.txt" "b.txt").status = "ERROR" ∧
    (reconcileFiles {} fsC1 "a.txt" "b.txt").details = none :=
  c10_truncation_unreachable {} fsC1 "a.txt" "b.txt" rfl rfl rfl (by decide)
    (Or.inl (by decide))

end AIFileReconciliation
